import Mathlib

/-!
A shallow embedding of the DNS message codec and reply synthesis of the
`uind` DNS relay (src/message.rs, src/codec.rs, src/main.rs), together
with theorems settling the specification claims about it.

Conventions of the embedding:
* machine integers are `Nat`; wrapping casts are explicit `% 2^w`;
* a Rust `String` is represented by its byte sequence (`List Nat`):
  `String::from_utf8_lossy` is the identity on the valid-UTF-8 byte
  sequences used in every statement below;
* a byte buffer is a `List Nat`; Rust slice indexing that can panic is
  modelled by `Option`-returning reads, and an out-of-bounds access
  surfaces as the distinguished `panik` outcome;
* the source's `while` loops over name-compression pointers can diverge,
  so they are fuelled; exhausting fuel surfaces as the distinguished
  `timeout` outcome (a result other than `timeout` is the value the Rust
  loop computes).
-/

namespace Uind

/-- Mirrors `DnsOpcode` in src/message.rs. -/
inductive DnsOpcode where
  | Query
  | InverseQuery
  | Status
deriving DecidableEq

/-- The `#[repr(u8)]` discriminant of `DnsOpcode`. -/
def DnsOpcode.toNat : DnsOpcode → Nat
  | .Query => 0
  | .InverseQuery => 1
  | .Status => 2

/-- Mirrors `DnsOpcode::try_from` in src/message.rs. -/
def DnsOpcode.tryFrom (x : Nat) : Option DnsOpcode :=
  match x with
  | 0 => some .Query
  | 1 => some .InverseQuery
  | 2 => some .Status
  | _ => none

/-- Mirrors `DnsRcode` in src/message.rs. -/
inductive DnsRcode where
  | NoErrorCondition
  | FormatError
  | ServerFailure
  | NameError
  | NotImplemented
  | Refused
deriving DecidableEq

/-- The `#[repr(u8)]` discriminant of `DnsRcode`. -/
def DnsRcode.toNat : DnsRcode → Nat
  | .NoErrorCondition => 0
  | .FormatError => 1
  | .ServerFailure => 2
  | .NameError => 3
  | .NotImplemented => 4
  | .Refused => 5

/-- Mirrors `DnsRcode::try_from` in src/message.rs. -/
def DnsRcode.tryFrom (x : Nat) : Option DnsRcode :=
  match x with
  | 0 => some .NoErrorCondition
  | 1 => some .FormatError
  | 2 => some .ServerFailure
  | 3 => some .NameError
  | 4 => some .NotImplemented
  | 5 => some .Refused
  | _ => none

/-- Mirrors `DnsType` in src/message.rs. -/
inductive DnsType where
  | A
  | NS
  | MD
  | MF
  | CNAME
  | SOA
  | MB
  | MG
  | MR
  | NULL
  | WKS
  | PTR
  | HINFO
  | MINFO
  | MX
  | TXT
  | AAAA
  | AXFR
  | MAILB
  | MAILA
  | Any
deriving DecidableEq

/-- The `#[repr(u8)]` discriminant of `DnsType` (A = 1, ..., AAAA = 28, AXFR = 252, ...). -/
def DnsType.toNat : DnsType → Nat
  | .A => 1
  | .NS => 2
  | .MD => 3
  | .MF => 4
  | .CNAME => 5
  | .SOA => 6
  | .MB => 7
  | .MG => 8
  | .MR => 9
  | .NULL => 10
  | .WKS => 11
  | .PTR => 12
  | .HINFO => 13
  | .MINFO => 14
  | .MX => 15
  | .TXT => 16
  | .AAAA => 28
  | .AXFR => 252
  | .MAILB => 253
  | .MAILA => 254
  | .Any => 255

/-- Mirrors `DnsType::try_from` in src/message.rs. -/
def DnsType.tryFrom (x : Nat) : Option DnsType :=
  match x with
  | 1 => some .A
  | 2 => some .NS
  | 3 => some .MD
  | 4 => some .MF
  | 5 => some .CNAME
  | 6 => some .SOA
  | 7 => some .MB
  | 8 => some .MG
  | 9 => some .MR
  | 10 => some .NULL
  | 11 => some .WKS
  | 12 => some .PTR
  | 13 => some .HINFO
  | 14 => some .MINFO
  | 15 => some .MX
  | 16 => some .TXT
  | 28 => some .AAAA
  | 252 => some .AXFR
  | 253 => some .MAILB
  | 254 => some .MAILA
  | 255 => some .Any
  | _ => none

/-- Mirrors `DnsClass` in src/message.rs. -/
inductive DnsClass where
  | Internet
  | CSNet
  | CHAOS
  | Hesiod
  | Any
deriving DecidableEq

/-- The `#[repr(u8)]` discriminant of `DnsClass` (Internet = 1, ..., Any = 255). -/
def DnsClass.toNat : DnsClass → Nat
  | .Internet => 1
  | .CSNet => 2
  | .CHAOS => 3
  | .Hesiod => 4
  | .Any => 255

/-- Mirrors `DnsClass::try_from` in src/message.rs. -/
def DnsClass.tryFrom (x : Nat) : Option DnsClass :=
  match x with
  | 1 => some .Internet
  | 255 => some .Any
  | _ => none

/-- Mirrors `DnsHeader` in src/message.rs; `query = true` means the QR bit is 0. -/
structure DnsHeader where
  id : Nat
  query : Bool
  opcode : DnsOpcode
  authoritative : Bool
  truncated : Bool
  recur_desired : Bool
  recur_available : Bool
  rcode : DnsRcode
deriving DecidableEq

/-- Mirrors `DnsQuestion` in src/message.rs; a qname is a list of labels,
each label the byte sequence of a Rust `String`. -/
structure DnsQuestion where
  qname : List (List Nat)
  qtype : DnsType
  qclass : DnsClass
deriving DecidableEq

/-- Mirrors `DnsRRData` in src/message.rs.  An `Ipv4Addr` is its four
octets; an `Ipv6Addr` is its eight 16-bit segments (the arguments of
`Ipv6Addr::new`). -/
inductive DnsRRData where
  | A (o1 o2 o3 o4 : Nat)
  | AAAA (s1 s2 s3 s4 s5 s6 s7 s8 : Nat)
  | MX (preference : Nat) (exchange : List (List Nat))
  | CNAME (cname : List (List Nat))
  | TXT (txt : List (List Nat))
  | SOA (mname rname : List (List Nat)) (serial refresh retr expire minimum : Nat)
  | NS (nsdname : List (List Nat))
deriving DecidableEq

/-- Mirrors `DnsResourceRecord` in src/message.rs. -/
structure DnsResourceRecord where
  name : List (List Nat)
  rtype : DnsType
  rclass : DnsClass
  ttl : Nat
  data : DnsRRData
deriving DecidableEq

/-- Mirrors `DnsMessage` in src/message.rs. -/
structure DnsMessage where
  header : DnsHeader
  question : List DnsQuestion
  answer : List DnsResourceRecord
  authority : List DnsResourceRecord
  additional : List DnsResourceRecord
deriving DecidableEq

/-! ## Encoder (src/codec.rs, `impl Encoder for DnsMessageCodec`) -/

/-- Mirrors `BufMut::put_u16_be`: only the low 16 bits of the argument
reach the two emitted bytes, which also absorbs the `as u16` cast found
at each call site. -/
def putU16 (x : Nat) : List Nat :=
  [x / 256 % 256, x % 256]

/-- Mirrors `BufMut::put_u32_be`. -/
def putU32 (x : Nat) : List Nat :=
  [x / 16777216 % 256, x / 65536 % 256, x / 256 % 256, x % 256]

/-- Mirrors `DnsMessageCodec::encode_name` (src/codec.rs:368): each label
is emitted as `put_u8(len as u8)` followed by its bytes, then a final 0. -/
def encodeName : List (List Nat) → List Nat
  | [] => [0]
  | label :: rest => (label.length % 256) :: (label ++ encodeName rest)

/-- Mirrors the local `name_length` helper inside `encode_rr`
(src/codec.rs:378): u16 arithmetic, so every addition wraps mod 2^16. -/
def nameLength (name : List (List Nat)) : Nat :=
  (name.foldl (fun len l => (len + 1 + l.length % 65536) % 65536) 0 + 1) % 65536

/-- Mirrors `DnsMessageCodec::encode_header` (src/codec.rs:347).  Note the
source expression `(opcode as u8) & 0xf << 3`: Rust shift binds tighter
than bitwise and, so this is `opcode &&& (0xf <<< 3)`. -/
def encodeHeader (m : DnsMessage) : List Nat :=
  putU16 m.header.id ++
  [((cond m.header.query 0 1) <<< 7) |||
     (m.header.opcode.toNat &&& (0xf <<< 3)) |||
     ((cond m.header.authoritative 1 0) <<< 2) |||
     ((cond m.header.truncated 1 0) <<< 1) |||
     (cond m.header.recur_desired 1 0),
   ((cond m.header.recur_available 1 0) <<< 7) |||
     (m.header.rcode.toNat &&& 0xf)] ++
  putU16 m.question.length ++
  putU16 m.answer.length ++
  putU16 m.authority.length ++
  putU16 m.additional.length

/-- The TXT rdata bytes: `put_u8(len as u8)` then the bytes, per string. -/
def txtBytes : List (List Nat) → List Nat
  | [] => []
  | s :: rest => (s.length % 256) :: (s ++ txtBytes rest)

/-- The rdata branch of `DnsMessageCodec::encode_rr` (src/codec.rs:392):
the 2-byte RDLENGTH followed by the rdata bytes. -/
def encodeRRData : DnsRRData → List Nat
  | .A o1 o2 o3 o4 =>
      putU16 4 ++ [o1 % 256, o2 % 256, o3 % 256, o4 % 256]
  | .AAAA s1 s2 s3 s4 s5 s6 s7 s8 =>
      putU16 16 ++ putU16 s1 ++ putU16 s2 ++ putU16 s3 ++ putU16 s4 ++
        putU16 s5 ++ putU16 s6 ++ putU16 s7 ++ putU16 s8
  | .MX preference exchange =>
      putU16 (nameLength exchange + 2) ++ putU16 preference ++ encodeName exchange
  | .CNAME cname =>
      putU16 (nameLength cname) ++ encodeName cname
  | .TXT txt =>
      putU16 (txt.foldl (fun acc s => acc + s.length + 1) 0) ++ txtBytes txt
  | .SOA mname rname serial refresh retr expire minimum =>
      putU16 (nameLength mname + nameLength rname + 4 * 5) ++
        encodeName mname ++ encodeName rname ++
        putU32 serial ++ putU32 refresh ++ putU32 retr ++ putU32 expire ++ putU32 minimum
  | .NS nsdname =>
      putU16 (nameLength nsdname) ++ encodeName nsdname

/-- Mirrors `DnsMessageCodec::encode_rr` (src/codec.rs:377). -/
def encodeRR (rr : DnsResourceRecord) : List Nat :=
  encodeName rr.name ++ putU16 rr.rtype.toNat ++ putU16 rr.rclass.toNat ++
    putU32 rr.ttl ++ encodeRRData rr.data

/-- The question loop of `DnsMessageCodec::encode` (src/codec.rs:316). -/
def encodeQuestions : List DnsQuestion → List Nat
  | [] => []
  | q :: rest =>
      (encodeName q.qname ++ putU16 q.qtype.toNat ++ putU16 q.qclass.toNat) ++
        encodeQuestions rest

/-- The record loops of `DnsMessageCodec::encode` (src/codec.rs:321). -/
def encodeRRs : List DnsResourceRecord → List Nat
  | [] => []
  | rr :: rest => encodeRR rr ++ encodeRRs rest

/-- The message body built into the scratch buffer `this` by
`DnsMessageCodec::encode` before framing (src/codec.rs:315-329). -/
def encodeBody (m : DnsMessage) : List Nat :=
  encodeHeader m ++ encodeQuestions m.question ++ encodeRRs m.answer ++
    encodeRRs m.authority ++ encodeRRs m.additional

/-- Mirrors the framing tail of `DnsMessageCodec::encode`
(src/codec.rs:331-340): in TCP mode a 2-byte big-endian length is
prepended; in datagram mode, if the body exceeds 512 bytes the TC bit of
byte 2 is set and the buffer truncated to 512, otherwise the TC bit of
byte 2 is cleared. -/
def encodeMessage (tcp : Bool) (m : DnsMessage) : List Nat :=
  let body := encodeBody m
  if tcp then putU16 (body.length % 65536) ++ body
  else if body.length > 512 then (body.set 2 ((body.getD 2 0) ||| 2)).take 512
  else body.set 2 ((body.getD 2 0) &&& 0xFD)

/-- Datagram-mode (UDP) encoding: `DnsMessageCodec::new(false)`. -/
def encodeDgram (m : DnsMessage) : List Nat :=
  encodeMessage false m

/-- Stream-mode (TCP) encoding: `DnsMessageCodec::new(true)`. -/
def encodeStream (m : DnsMessage) : List Nat :=
  encodeMessage true m

/-! ## Decoder (src/codec.rs, `impl Decoder for DnsMessageCodec`) -/

/-- Outcome of a decoding step that moves the cursor.  `ok a off` is a
normal return with the new cursor; `err off` is a returned
`Err(InvalidData)` with the cursor as the source left it; `panik` is a
Rust panic (out-of-bounds slice index); `timeout` is fuel exhaustion of a
loop that the source runs unboundedly. -/
inductive POut (α : Type) where
  | ok (a : α) (off : Nat)
  | err (off : Nat)
  | panik
  | timeout
deriving DecidableEq

/-- Whether a step outcome is a returned parse error. -/
def POut.isErr {α : Type} : POut α → Bool
  | .err _ => true
  | _ => false

/-- Outcome of an internal loop that cannot itself return `Err`. -/
inductive LoopOut (α : Type) where
  | done (a : α)
  | panik
  | timeout
deriving DecidableEq

/-- Rust slice `&src[a..b]`: defined only when `a ≤ b ≤ src.length`,
otherwise the access panics. -/
def slice (src : List Nat) (a b : Nat) : Option (List Nat) :=
  if a ≤ b ∧ b ≤ src.length then some ((src.drop a).take (b - a)) else none

/-- The two-byte big-endian read `(src[off] as u16) << 8 | src[off+1]`. -/
def read16 (src : List Nat) (off : Nat) : Option Nat :=
  match src.get? off, src.get? (off + 1) with
  | some a, some b => some ((a <<< 8) ||| b)
  | _, _ => none

/-- The four-byte big-endian read used for TTL and the SOA integers. -/
def read32 (src : List Nat) (off : Nat) : Option Nat :=
  match src.get? off, src.get? (off + 1), src.get? (off + 2), src.get? (off + 3) with
  | some a, some b, some c, some d => some ((a <<< 24) ||| (b <<< 16) ||| (c <<< 8) ||| d)
  | _, _, _, _ => none

/-- Mirrors `DnsMessageCodec::next_type` (src/codec.rs:279): the offset
advances by 2 before the enum lookup, so an unknown value leaves the
cursor past the two type bytes. -/
def nextType (src : List Nat) (off : Nat) : POut DnsType :=
  match read16 src off with
  | none => .panik
  | some x =>
    match DnsType.tryFrom x with
    | some ty => .ok ty (off + 2)
    | none => .err (off + 2)

/-- Mirrors `DnsMessageCodec::next_class` (src/codec.rs:293). -/
def nextClass (src : List Nat) (off : Nat) : POut DnsClass :=
  match read16 src off with
  | none => .panik
  | some x =>
    match DnsClass.tryFrom x with
    | some cls => .ok cls (off + 2)
    | none => .err (off + 2)

/-- The leading label loop of `next_name` (src/codec.rs:239-248):
`while label_len != 0 && (label_len >> 6) & 0x3 != 0x3`.  Returns the
accumulated labels, the label byte that stopped the loop, and the cursor
(one past that byte). -/
def labelLoop : Nat → List Nat → List (List Nat) → Nat → Nat →
    LoopOut (List (List Nat) × Nat × Nat)
  | 0, _, _, _, _ => .timeout
  | fuel + 1, src, name, labelLen, off =>
    if labelLen ≠ 0 ∧ (labelLen >>> 6) &&& 3 ≠ 3 then
      match slice src off (off + labelLen) with
      | none => .panik
      | some lab =>
        match src.get? (off + labelLen) with
        | none => .panik
        | some b => labelLoop fuel src (name ++ [lab]) b (off + labelLen + 1)
    else .done (name, labelLen, off)

/-- The pointer-chasing loop of `next_name` (src/codec.rs:260-265):
`while (label_len >> 6) & 0x3 == 0x3`.  Note the source computes the jump
target as `(label_len & 0b111111) | src[i]` with no left shift.  Returns
the label byte and cursor after the chase. -/
def chaseLoop : Nat → List Nat → Nat → Nat → LoopOut (Nat × Nat)
  | 0, _, _, _ => .timeout
  | fuel + 1, src, labelLen, i =>
    if (labelLen >>> 6) &&& 3 = 3 then
      match src.get? i with
      | none => .panik
      | some b =>
        match src.get? ((labelLen &&& 63) ||| b) with
        | none => .panik
        | some l2 => chaseLoop fuel src l2 (((labelLen &&& 63) ||| b) + 1)
    else .done (labelLen, i)

/-- The label loop after a pointer (src/codec.rs:258-273):
`while label_len != 0 { chase; push label }`. -/
def ptrLabelLoop : Nat → List Nat → List (List Nat) → Nat → Nat →
    LoopOut (List (List Nat))
  | 0, _, _, _, _ => .timeout
  | fuel + 1, src, name, labelLen, i =>
    if labelLen ≠ 0 then
      match chaseLoop (fuel + 1) src labelLen i with
      | .timeout => .timeout
      | .panik => .panik
      | .done (ll, j) =>
        match slice src j (j + ll) with
        | none => .panik
        | some lab =>
          match src.get? (j + ll) with
          | none => .panik
          | some b => ptrLabelLoop fuel src (name ++ [lab]) b (j + ll + 1)
    else .done name

/-- Mirrors `DnsMessageCodec::next_name` (src/codec.rs:234): leading
labels, then, if the stopping byte has both high bits set, the pointer is
followed (target `(label_len & 63) | second_byte`, the source's
expression) and the outer cursor resumes one past the 2-byte pointer. -/
def nextName (fuel : Nat) (src : List Nat) (off0 : Nat) : POut (List (List Nat)) :=
  match src.get? off0 with
  | none => .panik
  | some l0 =>
    match labelLoop fuel src [] l0 (off0 + 1) with
    | .timeout => .timeout
    | .panik => .panik
    | .done (name, labelLen, off) =>
      if (labelLen >>> 6) &&& 3 = 3 then
        match src.get? off with
        | none => .panik
        | some b2 =>
          match src.get? ((labelLen &&& 63) ||| b2) with
          | none => .panik
          | some l1 =>
            match ptrLabelLoop fuel src name l1 (((labelLen &&& 63) ||| b2) + 1) with
            | .timeout => .timeout
            | .panik => .panik
            | .done name2 => .ok name2 (off + 1)
      else .ok name off

/-- The TXT rdata loop of `next_rr` (src/codec.rs:197-201):
`while offset != final_pos`.  Note the slice `&src[off+1 .. off+len]`,
which takes `len - 1` bytes. -/
def txtLoop : Nat → List Nat → Nat → Nat → List (List Nat) →
    LoopOut (List (List Nat) × Nat)
  | 0, _, _, _, _ => .timeout
  | fuel + 1, src, off, finalPos, acc =>
    if off ≠ finalPos then
      match src.get? off with
      | none => .panik
      | some len =>
        match slice src (off + 1) (off + len) with
        | none => .panik
        | some s => txtLoop fuel src (off + 1 + len) finalPos (acc ++ [s])
    else .done (acc, off)

/-- The per-type rdata decoding of `next_rr` (src/codec.rs:165-229),
entered with the cursor just past the RDLENGTH field. -/
def rdataDecode (fuel : Nat) (src : List Nat) (off finalPos rdlen : Nat)
    (rclass : DnsClass) (rtype : DnsType) (name : List (List Nat)) (ttl : Nat) :
    POut DnsResourceRecord :=
  match rclass, rtype with
  | .Internet, .A =>
    match src.get? off, src.get? (off + 1), src.get? (off + 2), src.get? (off + 3) with
    | some o1, some o2, some o3, some o4 =>
        .ok ⟨name, rtype, rclass, ttl, .A o1 o2 o3 o4⟩ (off + rdlen)
    | _, _, _, _ => .panik
  | .Internet, .AAAA =>
    match read16 src off, read16 src (off + 2), read16 src (off + 4),
          read16 src (off + 6), read16 src (off + 8), read16 src (off + 10),
          read16 src (off + 12), read16 src (off + 14) with
    | some s1, some s2, some s3, some s4, some s5, some s6, some s7, some s8 =>
        .ok ⟨name, rtype, rclass, ttl, .AAAA s1 s2 s3 s4 s5 s6 s7 s8⟩ (off + rdlen)
    | _, _, _, _, _, _, _, _ => .panik
  | .Internet, .MX =>
    match read16 src off with
    | none => .panik
    | some preference =>
      match nextName fuel src (off + 2) with
      | .timeout => .timeout
      | .panik => .panik
      | .err o => .err o
      | .ok exchange o => .ok ⟨name, rtype, rclass, ttl, .MX preference exchange⟩ o
  | .Internet, .CNAME =>
    match nextName fuel src off with
    | .timeout => .timeout
    | .panik => .panik
    | .err o => .err o
    | .ok cname o => .ok ⟨name, rtype, rclass, ttl, .CNAME cname⟩ o
  | .Internet, .TXT =>
    match txtLoop fuel src off finalPos [] with
    | .timeout => .timeout
    | .panik => .panik
    | .done (txt, o) => .ok ⟨name, rtype, rclass, ttl, .TXT txt⟩ o
  | .Internet, .SOA =>
    match nextName fuel src off with
    | .timeout => .timeout
    | .panik => .panik
    | .err o => .err o
    | .ok mname o1 =>
      match nextName fuel src o1 with
      | .timeout => .timeout
      | .panik => .panik
      | .err o => .err o
      | .ok rname o2 =>
        match read32 src o2, read32 src (o2 + 4), read32 src (o2 + 8),
              read32 src (o2 + 12), read32 src (o2 + 16) with
        | some serial, some refresh, some retr, some expire, some minimum =>
            .ok ⟨name, rtype, rclass, ttl, .SOA mname rname serial refresh retr expire minimum⟩
              (o2 + 20)
        | _, _, _, _, _ => .panik
  | .Internet, .NS =>
    match nextName fuel src off with
    | .timeout => .timeout
    | .panik => .panik
    | .err o => .err o
    | .ok nsdname o => .ok ⟨name, rtype, rclass, ttl, .NS nsdname⟩ o
  | _, _ => .err (off + rdlen)

/-- Mirrors `DnsMessageCodec::next_rr` (src/codec.rs:142): the RDLENGTH
is peeked at name-end + 8 before type and class are consumed; an unknown
type or class resets the cursor to `final_pos = name_end + 10 + rdlen`. -/
def nextRR (fuel : Nat) (src : List Nat) (off0 : Nat) : POut DnsResourceRecord :=
  match nextName fuel src off0 with
  | .timeout => .timeout
  | .panik => .panik
  | .err o => .err o
  | .ok name off =>
    match read16 src (off + 8) with
    | none => .panik
    | some rdlen =>
      match nextType src off with
      | .timeout => .timeout
      | .panik => .panik
      | .err _ => .err (off + 10 + rdlen)
      | .ok rtype off1 =>
        match nextClass src off1 with
        | .timeout => .timeout
        | .panik => .panik
        | .err _ => .err (off + 10 + rdlen)
        | .ok rclass off2 =>
          match read32 src off2 with
          | none => .panik
          | some ttl =>
            rdataDecode fuel src (off2 + 4 + 2) (off + 10 + rdlen) rdlen rclass rtype name ttl

/-- The question loop of `decode` (src/codec.rs:98-103): a parse error in
any of the three parts of a question logs and `continue`s, keeping the
cursor wherever the failing call left it. -/
def qLoop : Nat → Nat → List Nat → Nat → List DnsQuestion →
    LoopOut (List DnsQuestion × Nat)
  | 0, _, _, off, acc => .done (acc, off)
  | n + 1, fuel, src, off, acc =>
    match nextName fuel src off with
    | .timeout => .timeout
    | .panik => .panik
    | .err o => qLoop n fuel src o acc
    | .ok qname o1 =>
      match nextType src o1 with
      | .timeout => .timeout
      | .panik => .panik
      | .err o2 => qLoop n fuel src o2 acc
      | .ok qtype o2 =>
        match nextClass src o2 with
        | .timeout => .timeout
        | .panik => .panik
        | .err o3 => qLoop n fuel src o3 acc
        | .ok qclass o3 => qLoop n fuel src o3 (acc ++ [⟨qname, qtype, qclass⟩])

/-- The three record-section loops of `decode` (src/codec.rs:107-130):
an erring record is logged and skipped, the cursor staying where
`next_rr` put it. -/
def rrLoop : Nat → Nat → List Nat → Nat → List DnsResourceRecord →
    LoopOut (List DnsResourceRecord × Nat)
  | 0, _, _, off, acc => .done (acc, off)
  | n + 1, fuel, src, off, acc =>
    match nextRR fuel src off with
    | .timeout => .timeout
    | .panik => .panik
    | .err o => rrLoop n fuel src o acc
    | .ok rr o => rrLoop n fuel src o (acc ++ [rr])

/-- Mirrors the `DnsMessageCodec` struct fields (src/codec.rs:19). -/
structure CodecState where
  tcp : Bool
  len : Option Nat
  offset : Nat
deriving DecidableEq

/-- Result of one `decode` call.  `msg m st rest` is `Ok(Some(m))` with
the codec state and the bytes left in the buffer; `incomplete st rest`
is `Ok(None)`; `fail st rest` is `Err(..)` (unknown opcode or rcode);
`panik` is a Rust panic; `timeout` is fuel exhaustion. -/
inductive DecodeRes where
  | msg (m : DnsMessage) (st : CodecState) (rest : List Nat)
  | incomplete (st : CodecState) (rest : List Nat)
  | fail (st : CodecState) (rest : List Nat)
  | panik
  | timeout
deriving DecidableEq

/-- The body of `decode` from the header parse on (src/codec.rs:53-136):
header fields, the four section loops, then `split_to(offset)` (which
panics when the cursor overran the buffer) and the state reset. -/
def decodeInner (fuel : Nat) (st : CodecState) (src : List Nat) : DecodeRes :=
  match read16 src st.offset, src.get? (st.offset + 2), src.get? (st.offset + 3),
        read16 src (st.offset + 4), read16 src (st.offset + 6),
        read16 src (st.offset + 8), read16 src (st.offset + 10) with
  | some i, some b2, some b3, some qd, some an, some ns, some ar =>
    match DnsOpcode.tryFrom ((b2 >>> 3) &&& 0xf) with
    | none => .fail st src
    | some opcode =>
      match DnsRcode.tryFrom (b3 &&& 0xf) with
      | none => .fail st src
      | some rcode =>
        match qLoop qd fuel src (st.offset + 12) [] with
        | .timeout => .timeout
        | .panik => .panik
        | .done (question, o1) =>
          match rrLoop an fuel src o1 [] with
          | .timeout => .timeout
          | .panik => .panik
          | .done (answer, o2) =>
            match rrLoop ns fuel src o2 [] with
            | .timeout => .timeout
            | .panik => .panik
            | .done (authority, o3) =>
              match rrLoop ar fuel src o3 [] with
              | .timeout => .timeout
              | .panik => .panik
              | .done (additional, o4) =>
                if o4 ≤ src.length then
                  .msg ⟨⟨i, ((b2 >>> 7) &&& 1) == 0, opcode,
                         ((b2 >>> 2) &&& 1) == 1, ((b2 >>> 1) &&& 1) == 1,
                         (b2 &&& 1) == 1, ((b3 >>> 7) &&& 1) == 1, rcode⟩,
                        question, answer, authority, additional⟩
                    ⟨st.tcp, none, 0⟩ (src.drop o4)
                else .panik
  | _, _, _, _, _, _, _ => .panik

/-- The length-prefix handling of `decode` (src/codec.rs:45-51): with a
recorded length, wait for `2 + len` bytes then strip the 2-byte prefix. -/
def decodeLen (fuel : Nat) (st : CodecState) (src : List Nat) : DecodeRes :=
  match st.len with
  | some len =>
    if src.length < 2 + len then .incomplete st src
    else decodeInner fuel st (src.drop 2)
  | none => decodeInner fuel st src

/-- Mirrors `DnsMessageCodec::decode` (src/codec.rs:35): fewer than 12
bytes is `Ok(None)`; in TCP mode with no recorded length the first two
bytes are read as the big-endian frame length. -/
def decode (fuel : Nat) (st0 : CodecState) (src : List Nat) : DecodeRes :=
  if src.length < 12 then .incomplete st0 src
  else
    decodeLen fuel
      (if st0.tcp && st0.len.isNone then
        { st0 with len := some ((src.getD 0 0) <<< 8 ||| src.getD 1 0) }
      else st0) src

/-- The state of `DnsMessageCodec::new(false)` (UDP mode). -/
def udpInit : CodecState := ⟨false, none, 0⟩

/-- The state of `DnsMessageCodec::new(true)` (TCP mode). -/
def tcpInit : CodecState := ⟨true, none, 0⟩

/-! ## Reply synthesis (src/main.rs, `from_answer`) -/

/-- The per-record test inside `from_answer` (src/main.rs:247): whether a
record's data is an A record equal to `0.0.0.0`. -/
def isNullA (rr : DnsResourceRecord) : Bool :=
  match rr.data with
  | .A o1 o2 o3 o4 => o1 == 0 && o2 == 0 && o3 == 0 && o4 == 0
  | _ => false

/-- Mirrors `from_answer` (src/main.rs:246): a locally synthesized reply;
`refused` is folded over the answers exactly as in the source. -/
def fromAnswer (id : Nat) (answer : List DnsResourceRecord) : DnsMessage :=
  let refused := answer.foldl (fun r x => r || isNullA x) false
  { header :=
      { id := id, authoritative := false, query := false, opcode := .Query,
        truncated := false, recur_available := false, recur_desired := true,
        rcode := cond refused DnsRcode.Refused DnsRcode.NoErrorCondition },
    question := [],
    answer := cond refused [] answer,
    authority := [],
    additional := [] }

end Uind

namespace Uind

/-! ## Concrete inputs used by the claim theorems -/

/-- A well-formed query message whose opcode is `InverseQuery`: no
sections, 12-byte encoding. -/
def msgC1 : DnsMessage :=
  { header := { id := 7, query := true, opcode := .InverseQuery, authoritative := false,
                truncated := false, recur_desired := false, recur_available := false,
                rcode := .NoErrorCondition },
    question := [], answer := [], authority := [], additional := [] }

/-- A 12-byte datagram whose header announces one question (QDCOUNT = 1)
but which contains no bytes beyond the header. -/
def bufC3 : List Nat := [0, 0, 0, 0, 0, 1, 0, 0, 0, 0, 0, 0]

/-- A 259-byte buffer starting with the compression pointer `C1 00`
(14-bit offset 0x100 = 256) whose offset 256 holds the valid label
sequence `01 61 00` (the one-label name "a"). -/
def bufC4 : List Nat := 0xC1 :: 0x00 :: (List.replicate 254 0 ++ [1, 97, 0])

/-- A name whose first length byte is 0x41 (high bits `01`, a reserved
form), followed by 65 bytes and a terminating zero. -/
def bufC5 : List Nat := 0x41 :: (List.replicate 65 97 ++ [0])

/-- A resource record with root name, type TXT, class Internet, ttl 0,
and rdata `02 61 62` (RDLENGTH 3): one character string "ab". -/
def bufC6 : List Nat := [0, 0, 16, 0, 1, 0, 0, 0, 0, 0, 3, 2, 97, 98]

/-- A datagram with QDCOUNT = 2: first question has qname "a" and the
unrecognized qtype 17, second question is the well-formed (qname "b",
qtype A, qclass Internet). -/
def bufC7 : List Nat :=
  [0, 0, 0, 0, 0, 2, 0, 0, 0, 0, 0, 0,
   1, 97, 0, 0, 17, 0, 1,
   1, 98, 0, 0, 1, 0, 1]

/-- A supported query message (one A/Internet question for the name "a")
used for the stream-framing round trip. -/
def msgC8 : DnsMessage :=
  { header := { id := 0x1234, query := true, opcode := .Query, authoritative := false,
                truncated := false, recur_desired := false, recur_available := false,
                rcode := .NoErrorCondition },
    question := [⟨[[97]], .A, .Internet⟩], answer := [], authority := [], additional := [] }

/-- An answer record whose A data is 0.0.0.0, the "actively refuse"
convention of the hosts file. -/
def rrNull : DnsResourceRecord := ⟨[[98]], .A, .Internet, 10, .A 0 0 0 0⟩

/-! ## Helper lemmas -/

/-- The `fold`ed `refused` flag of `from_answer` is `List.any isNullA`. -/
theorem foldl_or_isNullA (l : List DnsResourceRecord) (b : Bool) :
    l.foldl (fun r x => r || isNullA x) b = (b || l.any isNullA) := by
  induction l generalizing b with
  | nil => simp
  | cons x xs ih => simp [List.foldl_cons, ih, Bool.or_assoc]

/-- On the buffer `C0 00`, the pointer-chasing loop revisits offset 0
forever: every fuel is exhausted. -/
theorem chaseLoop_cycle (f : Nat) : chaseLoop f [192, 0] 192 1 = .timeout := by
  induction f with
  | zero => rfl
  | succ g ih =>
    exact (rfl : chaseLoop (g + 1) [192, 0] 192 1 = chaseLoop g [192, 0] 192 1).trans ih

/-- The post-pointer label loop on `C0 00` diverges for every fuel. -/
theorem ptrLabelLoop_cycle (f : Nat) : ptrLabelLoop (f + 1) [192, 0] [] 192 1 = .timeout := by
  have h := chaseLoop_cycle (f + 1)
  simp [ptrLabelLoop, h]

/-! ## Claim theorems -/

/-- C1: the datagram round trip `decode (encode M) = M` (modulo re-derived
counts and the rewritten truncated bit) fails on the code: encoding the
well-formed message `msgC1`, whose opcode is InverseQuery, and decoding
the 12-byte result yields opcode Query, because `encode_header` writes
`opcode & (0xf << 3)`, which zeroes the OPCODE bits for every opcode
value 0-2. -/
theorem c1_roundtrip_fails_on_opcode :
    decode 8 udpInit (encodeDgram msgC1) =
      .msg { msgC1 with header := { msgC1.header with opcode := .Query } } udpInit [] ∧
    msgC1.header.opcode = .InverseQuery := by
  exact ⟨rfl, rfl⟩

/-- C2: the OPCODE bits of flags byte 2 do not equal the opcode for
opcode values ≥ 1: for a header with opcode InverseQuery (value 1), the
four OPCODE bits of the encoded byte 2 are 0, because the source writes
`opcode & 0xf << 3` (which Rust parses as `opcode & (0xf << 3)`). -/
theorem c2_opcode_bits_clobbered :
    (((encodeHeader msgC1).getD 2 0) >>> 3) &&& 0xf = 0 ∧
    DnsOpcode.InverseQuery.toNat = 1 := by
  exact ⟨rfl, rfl⟩

/-- C3: datagram-mode decode is not total: on the 12-byte buffer whose
header promises one question, `decode` indexes past the end of the
buffer (a Rust panic), instead of returning a message, an error, or
`None`. -/
theorem c3_decode_panics_on_short_buffer :
    decode 8 udpInit bufC3 = .panik := by
  exact rfl

/-- C4: the pointer target is computed as `(low6) | next_byte` with no
left shift: on `bufC4`, whose name starts with the pointer `C1 00`
(claimed 14-bit offset `(1 <<< 8) ||| 0 = 256`, where a valid label
sequence for the name "a" lies), the decoder ORs the low bits into the
next byte, jumps to offset 1 instead, and returns the empty name. -/
theorem c4_pointer_offset_not_shifted :
    nextName 8 bufC4 0 = .ok [] 2 ∧
    ((0xC1 &&& 63) <<< 8 ||| 0x00) = 256 ∧
    bufC4.get? 256 = some 1 ∧ bufC4.get? 257 = some 97 ∧ bufC4.get? 258 = some 0 := by
  refine ⟨?_, rfl, ?_, ?_, ?_⟩ <;> decide

/-- C5 (counterexample): a length byte with high bits `01` (0x41) is not
a parse error: the decoder returns `ok` with a 65-byte literal label. -/
theorem c5_reserved_form_not_an_error :
    nextName 8 bufC5 0 = .ok [List.replicate 65 97] 67 ∧
    (nextName 8 bufC5 0).isErr = false := by
  refine ⟨?_, ?_⟩ <;> decide

/-- C5 (amended): for every length byte `b` whose two high bits are `01`
or `10` (64 ≤ b < 192), name decoding treats `b` as a literal label
length: it consumes the next `b` bytes as a single label and continues
past them, raising no parse error. -/
theorem c5_reserved_form_is_literal_label (b : Nat) (label rest : List Nat) (f : Nat)
    (hb1 : 64 ≤ b) (hb2 : b < 192) (hlen : label.length = b) :
    nextName (f + 2) (b :: (label ++ 0 :: rest)) 0 = .ok [label] (b + 2) := by
  have hb0 : ¬b = 0 := by omega
  have hshift : ¬(b >>> 6) &&& 3 = 3 := by
    have h6 : b >>> 6 = b / 64 := by rw [Nat.shiftRight_eq_div_pow]
    have hd : b / 64 = 1 ∨ b / 64 = 2 := by omega
    rcases hd with hh | hh <;> rw [h6, hh] <;> decide
  have hslice : slice (b :: (label ++ 0 :: rest)) 1 (1 + b) = some label := by
    unfold slice
    rw [if_pos]
    · have h1 : (1 : Nat) + b - 1 = b := by omega
      have h2 : (b :: (label ++ 0 :: rest)).drop 1 = label ++ 0 :: rest := rfl
      rw [h1, h2, List.take_left' hlen]
    · refine ⟨by omega, ?_⟩
      simp only [List.length_cons, List.length_append, List.length_cons, hlen]
      omega
  have hzero : (b :: (label ++ 0 :: rest)).get? (1 + b) = some 0 := by
    have h1 : (1 : Nat) + b = b + 1 := Nat.add_comm 1 b
    rw [h1]
    show (label ++ 0 :: rest).get? b = some 0
    have h2 : label.length ≤ b := by omega
    simp [List.get?_eq_getElem?, List.getElem?_append_right h2, hlen]
  have hloop : labelLoop (f + 2) (b :: (label ++ 0 :: rest)) [] b 1 =
      .done ([label], 0, b + 2) := by
    show labelLoop (f + 1 + 1) (b :: (label ++ 0 :: rest)) [] b 1 = .done ([label], 0, b + 2)
    simp only [labelLoop, ne_eq, hb0, not_false_eq_true, hshift, and_self, if_true, hslice,
      hzero, List.nil_append, not_true_eq_false, false_and, if_false]
    have h3 : 1 + b + 1 = b + 2 := by omega
    rw [h3]
  simp only [nextName, List.get?_cons_zero, Nat.zero_add, hloop]
  norm_num

/-- C5 (witness): the amended statement at `b = 64`. -/
theorem c5_reserved_form_is_literal_label_w :
    nextName 2 ((64 : Nat) :: (List.replicate 64 7 ++ 0 :: [])) 0 =
      .ok [List.replicate 64 7] 66 :=
  c5_reserved_form_is_literal_label 64 (List.replicate 64 7) [] 0 (by decide) (by decide)
    (by simp)

/-- C6: TXT decoding drops the final byte of each character string: on a
TXT record whose rdata is the single string "ab" (`02 61 62`, RDLENGTH 3),
the decoder returns the one-byte string "a", because it slices
`src[offset+1 .. offset+len]` (len − 1 bytes) instead of
`src[offset+1 .. offset+1+len]`. -/
theorem c6_txt_drops_last_byte :
    nextRR 8 bufC6 0 = .ok ⟨[], .TXT, .Internet, 0, .TXT [[97]]⟩ 14 := by
  exact rfl

/-- C7: a question with an unrecognized qtype is skipped without
consuming its qclass bytes, so parsing resumes two bytes early and every
subsequent question is misparsed: decoding `bufC7` (question 1 has
qtype 17, question 2 is well-formed) yields an empty question list
instead of recovering question 2, and leaves six bytes unconsumed. -/
theorem c7_unknown_qtype_misaligns :
    decode 8 udpInit bufC7 =
      .msg { header := { id := 0, query := true, opcode := .Query, authoritative := false,
                         truncated := false, recur_desired := false, recur_available := false,
                         rcode := .NoErrorCondition },
             question := [], answer := [], authority := [], additional := [] }
        udpInit [98, 0, 0, 1, 0, 1] := by
  exact rfl

/-- C8 (counterexample): on the 4-byte buffer `00 02 00 00` the buffer
holds ≥ 2 bytes and exactly `2 + length` bytes (length prefix 2), yet
stream-mode decode returns `None` (incomplete) rather than one message,
because its first check requires 12 buffered bytes. -/
theorem c8_short_frame_returns_none :
    decode 8 tcpInit [0, 2, 0, 0] = .incomplete tcpInit [0, 2, 0, 0] ∧
    2 + ((0 <<< 8) ||| 2) ≤ 4 := by
  exact ⟨rfl, by decide⟩

/-- C8 (amended): stream-mode decode returns `None` when fewer than 12
bytes are buffered, or when fewer than `2 + length` bytes are buffered
(length being the big-endian 16-bit prefix, which is recorded in the
codec state); otherwise it strips the 2-byte prefix and parses one
message; a buffer holding two back-to-back stream encodings of the
supported query `msgC8` yields those two messages in order, consuming
exactly each frame and ending empty. -/
theorem c8_stream_framing :
    (∀ (st : CodecState) (src : List Nat), src.length < 12 →
        decode 8 st src = .incomplete st src) ∧
    (∀ (src : List Nat), 12 ≤ src.length →
        src.length < 2 + ((src.getD 0 0) <<< 8 ||| src.getD 1 0) →
        decode 8 tcpInit src =
          .incomplete ⟨true, some ((src.getD 0 0) <<< 8 ||| src.getD 1 0), 0⟩ src) ∧
    decode 8 tcpInit (encodeStream msgC8 ++ encodeStream msgC8) =
      .msg msgC8 tcpInit (encodeStream msgC8) ∧
    decode 8 tcpInit (encodeStream msgC8) = .msg msgC8 tcpInit [] := by
  refine ⟨?_, ?_, ?_, ?_⟩
  · intro st src h
    unfold decode
    rw [if_pos h]
  · intro src h12 hlt
    unfold decode
    rw [if_neg (by omega)]
    show decodeLen 8 ⟨true, some ((src.getD 0 0) <<< 8 ||| src.getD 1 0), 0⟩ src = _
    unfold decodeLen
    show (if src.length < 2 + ((src.getD 0 0) <<< 8 ||| src.getD 1 0) then _ else _) = _
    rw [if_pos hlt]
  · exact rfl
  · exact rfl

/-- C8 (witness): the first branch of the amended statement on a 3-byte
buffer. -/
theorem c8_stream_framing_w :
    decode 8 tcpInit [0, 0, 0] = .incomplete tcpInit [0, 0, 0] :=
  c8_stream_framing.1 tcpInit [0, 0, 0] (by decide)

/-- C9: the locally synthesized reply of `from_answer` has the claimed
header fields (`id`, QR = response i.e. `query = false`, opcode Query,
not authoritative, not truncated, recursion desired, recursion not
available), rcode Refused with an empty answer section when some record's
A data is 0.0.0.0, and otherwise rcode NoError with the given answers. -/
theorem c9_from_answer_shape (id : Nat) (answer : List DnsResourceRecord) :
    (fromAnswer id answer).header.id = id ∧
    (fromAnswer id answer).header.query = false ∧
    (fromAnswer id answer).header.opcode = .Query ∧
    (fromAnswer id answer).header.authoritative = false ∧
    (fromAnswer id answer).header.truncated = false ∧
    (fromAnswer id answer).header.recur_desired = true ∧
    (fromAnswer id answer).header.recur_available = false ∧
    (fromAnswer id answer).header.rcode =
      cond (answer.any isNullA) DnsRcode.Refused DnsRcode.NoErrorCondition ∧
    (fromAnswer id answer).answer = cond (answer.any isNullA) [] answer := by
  simp [fromAnswer, foldl_or_isNullA]

/-- C9 (witness): the synthesized reply for one 0.0.0.0 answer record is
refused with an empty answer section. -/
theorem c9_from_answer_shape_w :
    (fromAnswer 9 [rrNull]).header.id = 9 ∧
    (fromAnswer 9 [rrNull]).header.query = false ∧
    (fromAnswer 9 [rrNull]).header.opcode = .Query ∧
    (fromAnswer 9 [rrNull]).header.authoritative = false ∧
    (fromAnswer 9 [rrNull]).header.truncated = false ∧
    (fromAnswer 9 [rrNull]).header.recur_desired = true ∧
    (fromAnswer 9 [rrNull]).header.recur_available = false ∧
    (fromAnswer 9 [rrNull]).header.rcode = DnsRcode.Refused ∧
    (fromAnswer 9 [rrNull]).answer = [] :=
  c9_from_answer_shape 9 [rrNull]

/-- C10: name decoding does not terminate on a pointer cycle: on the
buffer `C0 00`, whose name is a pointer to offset 0 (itself), the
pointer-chasing loop revisits offset 0 forever — for every fuel bound the
embedded loops exhaust it, so no bound on pointer traversal exists in the
code and the claimed termination fails. -/
theorem c10_pointer_cycle_diverges (fuel : Nat) :
    nextName fuel [192, 0] 0 = .timeout := by
  match fuel with
  | 0 => rfl
  | f + 1 =>
    have h1 : nextName (f + 1) [192, 0] 0 =
        (match ptrLabelLoop (f + 1) [192, 0] [] 192 1 with
         | .timeout => POut.timeout
         | .panik => POut.panik
         | .done name2 => POut.ok name2 2) := rfl
    rw [h1, ptrLabelLoop_cycle f]

/-- C10 (witness): divergence at the concrete fuel 5. -/
theorem c10_pointer_cycle_diverges_w : nextName 5 [192, 0] 0 = .timeout :=
  c10_pointer_cycle_diverges 5

end Uind
